import Mathlib

/-!
Shallow embedding of `src/json-diff.py` (functions `compare_numeric_array_stats`
and `compare_json`) and proofs about the specified properties of the comparator.

Modelling decisions, stated once here:

* Python runtime values reachable from parsed JSON are modelled by the inductive
  type `JVal`, with one constructor per Python type that `type(...)` can return
  on such data: `NoneType`, `bool`, `int`, `float`, `str`, `list`, `dict`.
  `dict` is modelled as an association list with (as in Python) unique keys;
  well-formedness (`wfJ`) records the key-uniqueness that Python dictionaries
  guarantee structurally.
* Numeric values are modelled by exact rationals (`Rat`).  IEEE-754 rounding of
  `float` arithmetic is idealised away; `np.isclose(a, b)` with numpy's default
  tolerances is embedded exactly as `|a - b| <= 1e-8 + 1e-5 * |b|` over `Rat`.
* `np.std` returns the square root of the population variance; the comparison
  `np.isclose(std1, std2)` is embedded by `sqrtClose v1 v2`, an exact decision
  procedure (derivation in its doc comment) for
  `|sqrt v1 - sqrt v2| <= atol + rtol * sqrt v2` over the rationals.
* Python's rendering of numbers in messages is idealised: `repr` of a float is
  rendered as the exact terminating decimal expansion of the rational value
  (Python's shortest-round-trip repr and scientific-notation thresholds, and
  numpy's dtype-dependent scalar rendering, are not representable once numbers
  are exact rationals).  Integers, booleans and strings render exactly.
* Python iterates `added_keys`, `removed_keys`, `common_keys` in (arbitrary)
  hash-set order; the embedding fixes the deterministic order of the underlying
  operand lists (`keys2` order for added, `keys1` order for removed and common),
  which is one admissible instance of the unspecified set order.  For common
  keys Python evaluates `obj1[key]`; on a well-formed (duplicate-free) dict this
  is exactly the value stored with the entry, which is what `compareCommon`
  uses.
-/

namespace JsonDiff

/-- Python values occurring in a parsed JSON document:
`None`, `bool`, `int`, `float`, `str`, `list`, `dict`. -/
inductive JVal where
  | JNull : JVal
  | JBool (b : Bool) : JVal
  | JInt (n : Int) : JVal
  | JFloat (q : Rat) : JVal
  | JStr (s : String) : JVal
  | JList (xs : List JVal) : JVal
  | JDict (kvs : List (String × JVal)) : JVal

open JVal

/-- `type(v).__name__` in Python, used by the type-mismatch message of
`compare_json` (line 73 of the source). -/
def tyName : JVal → String
  | JNull => "NoneType"
  | JBool _ => "bool"
  | JInt _ => "int"
  | JFloat _ => "float"
  | JStr _ => "str"
  | JList _ => "list"
  | JDict _ => "dict"

/-- `isinstance(x, (int, float))` in Python.  Note that Python's `bool` is a
subclass of `int`, so booleans satisfy this test. -/
def isNum : JVal → Bool
  | JBool _ => true
  | JInt _ => true
  | JFloat _ => true
  | _ => false

/-- The numeric value of an `int`, `float` or `bool` (Python's `True == 1`,
`False == 0`); `0` on the other constructors (never used there). -/
def numVal : JVal → Rat
  | JBool b => if b then 1 else 0
  | JInt n => (n : Rat)
  | JFloat q => q
  | _ => 0

/-- numpy's default absolute tolerance `atol = 1e-8`. -/
def atol : Rat := 1 / 100000000

/-- numpy's default relative tolerance `rtol = 1e-5`. -/
def rtol : Rat := 1 / 100000

/-- Absolute value on `Rat`, written out so that it reduces in the kernel. -/
def ratAbs (q : Rat) : Rat := if q < 0 then -q else q

/-- Binary minimum on `Rat`, written out so that it reduces in the kernel. -/
def qmin (a b : Rat) : Rat := if a ≤ b then a else b

/-- Binary maximum on `Rat`, written out so that it reduces in the kernel. -/
def qmax (a b : Rat) : Rat := if a ≤ b then b else a

/-- `np.isclose(a, b)` with default tolerances:
`|a - b| <= atol + rtol * |b|`. -/
def isclose (a b : Rat) : Bool :=
  decide (ratAbs (a - b) ≤ atol + rtol * ratAbs b)

/-- Exact rational decision of `|sqrt v1 - sqrt v2| <= atol + rtol * sqrt v2`
for `v1 v2 ≥ 0`, i.e. `np.isclose(std1, std2)` where `stdᵢ = sqrt vᵢ` is the
standard deviation computed from the population variance `vᵢ`.

Derivation (write `s1 = sqrt v1`, `s2 = sqrt v2`, `a = atol`, `r = rtol`):
the inequality splits into
`A : s1 ≤ a + (1+r)*s2` and `B : (1-r)*s2 - a ≤ s1`.
Since both sides of `A` are nonnegative, `A` holds iff
`v1 ≤ a^2 + (1+r)^2*v2 + 2*a*(1+r)*s2`, i.e. with
`L = v1 - a^2 - (1+r)^2*v2` iff `L ≤ 0 ∨ L^2 ≤ (2*a*(1+r))^2*v2`.
`B` holds iff `(1-r)*s2 ≤ a` (iff `(1-r)^2*v2 ≤ a^2`) or
`((1-r)*s2 - a)^2 ≤ v1`, and the latter, with
`M = (1-r)^2*v2 + a^2 - v1`, holds iff `M ≤ 0 ∨ M^2 ≤ (2*a*(1-r))^2*v2`. -/
def sqrtClose (v1 v2 : Rat) : Bool :=
  let a := atol
  let r := rtol
  let L := v1 - a * a - ((1 + r) * (1 + r)) * v2
  let M := ((1 - r) * (1 - r)) * v2 + a * a - v1
  (decide (L ≤ 0) || decide (L * L ≤ ((2 * a * (1 + r)) * (2 * a * (1 + r))) * v2)) &&
    (decide (((1 - r) * (1 - r)) * v2 ≤ a * a) || decide (M ≤ 0) ||
      decide (M * M ≤ ((2 * a * (1 - r)) * (2 * a * (1 - r))) * v2))

/-- `np.mean`: arithmetic mean of a list of numbers. -/
def meanQ (xs : List Rat) : Rat := xs.sum / (xs.length : Rat)

/-- Population variance, so that `np.std xs = sqrt (varQ xs)`
(numpy's `std` uses divisor `n`, no Bessel correction). -/
def varQ (xs : List Rat) : Rat :=
  ((xs.map (fun x => (x - meanQ xs) * (x - meanQ xs))).sum) / (xs.length : Rat)

/-- `np.min` of a nonempty list (`0` on `[]`, never used there). -/
def minQ : List Rat → Rat
  | [] => 0
  | x :: xs => xs.foldl qmin x

/-- `np.max` of a nonempty list (`0` on `[]`, never used there). -/
def maxQ : List Rat → Rat
  | [] => 0
  | x :: xs => xs.foldl qmax x

/-- Left-pad a string with the digit `0` up to width `k`
(used by fixed-precision rendering). -/
def padZeros (k : Nat) (s : String) : String :=
  String.mk (List.replicate (k - s.length) (Char.ofNat 48)) ++ s

/-- Round a rational to the nearest integer, ties to even
(the rounding used by Python's fixed-precision formatting). -/
def roundHalfEven (x : Rat) : Int :=
  let f : Int := x.floor
  let r : Rat := x - (f : Rat)
  if r < 1 / 2 then f
  else if 1 / 2 < r then f + 1
  else if f % 2 = 0 then f else f + 1

/-- Python's `format(q, ".4f")`: fixed four decimal places. -/
def fmt4 (q : Rat) : String :=
  let n := roundHalfEven (q * 10000)
  let m := n.natAbs
  (if n < 0 then "-" else "") ++ toString (m / 10000) ++ "." ++
    padZeros 4 (toString (m % 10000))

/-- Nearest natural number to `sqrt x` for a nonnegative rational `x`
(ties rounded up). -/
def sqrtNearest (x : Rat) : Nat :=
  let k := Nat.sqrt x.floor.toNat
  if ((k * k : Nat) : Rat) + (k : Rat) + 1 / 4 ≤ x then k + 1 else k

/-- `format(sqrt v, ".4f")` for a nonnegative rational `v`:
the standard deviation rendered to four decimal places. -/
def fmt4Sqrt (v : Rat) : String :=
  let n := sqrtNearest (v * 100000000)
  toString (n / 10000) ++ "." ++ padZeros 4 (toString (n % 10000))

/-- `10 ^ k` as a rational, by structural recursion (kernel-reducible). -/
def qpow10 : Nat → Rat
  | 0 => 1
  | k + 1 => 10 * qpow10 k

/-- The least `k ≤ 64` such that `q * 10^k` is an integer, if one exists:
the number of decimal digits needed to render `q` exactly. -/
def decExp (q : Rat) : Option Nat :=
  (List.range 65).find? (fun k => (q * qpow10 k).den == 1)

/-- Idealised rendering of a Python `float`: the exact terminating decimal
expansion with at least one fractional digit (Python renders the shortest
decimal that round-trips through the IEEE-754 value; on exact rationals this
is the terminating expansion).  A rational with no terminating expansion is
rendered as a fraction (unreachable from decimal JSON input). -/
def fmtFloat (q : Rat) : String :=
  match decExp q with
  | some e =>
      let k := max 1 e
      let n := (q * qpow10 k).num
      let m := n.natAbs
      (if n < 0 then "-" else "") ++ toString (m / 10 ^ k) ++ "." ++
        padZeros k (toString (m % 10 ^ k))
  | none => toString q.num ++ "/" ++ toString q.den

/-- Rendering of the `np.min`/`np.max` scalars in the Min/Max sub-lines:
an integral value renders as an integer (numpy's int64 scalar), otherwise as
the decimal expansion. -/
def fmtStat (q : Rat) : String :=
  if q.den = 1 then toString q.num else fmtFloat q

/-- Python's rendering of an `int`, `float` or `bool` value inside an f-string
(used by the numeric-mismatch message). -/
def pyShowNum : JVal → String
  | JBool b => if b then "True" else "False"
  | JInt n => toString n
  | JFloat q => fmtFloat q
  | _ => ""

/-- Python's rendering of `obj2 - obj1` for two values of the same numeric
type: `int - int` and `bool - bool` are integers, `float - float` is a float. -/
def pyShowDiff : JVal → JVal → String
  | JInt m, JInt n => toString (n - m)
  | JBool x, JBool y =>
      toString ((if y then (1 : Int) else 0) - (if x then (1 : Int) else 0))
  | JFloat p, JFloat q => fmtFloat (q - p)
  | _, _ => ""

/-- The apostrophe character used by the source's messages. -/
def sq : String := "\x27"

/-- Line 73: `[{path}] Type mismatch: {type(obj1).__name__} vs {type(obj2).__name__}`. -/
def typeMismatchMsg (path : String) (a b : JVal) : String :=
  "[" ++ path ++ "] Type mismatch: " ++ tyName a ++ " vs " ++ tyName b

/-- Line 86: `[{path}] Key '{key}' added in second file.`. -/
def keyAddedMsg (path k : String) : String :=
  "[" ++ path ++ "] Key " ++ sq ++ k ++ sq ++ " added in second file."

/-- Line 88: `[{path}] Key '{key}' removed in second file.`. -/
def keyRemovedMsg (path k : String) : String :=
  "[" ++ path ++ "] Key " ++ sq ++ k ++ sq ++ " removed in second file."

/-- Line 104: `[{path}] List length mismatch: {len(obj1)} vs {len(obj2)}`. -/
def lenMismatchMsg (path : String) (n1 n2 : Nat) : String :=
  "[" ++ path ++ "] List length mismatch: " ++ toString n1 ++ " vs " ++ toString n2

/-- Line 113: `[{path}] Numeric value mismatch: {obj1} vs {obj2} (Difference: {obj2 - obj1})`. -/
def numMismatchMsg (path : String) (a b : JVal) : String :=
  "[" ++ path ++ "] Numeric value mismatch: " ++ pyShowNum a ++ " vs " ++
    pyShowNum b ++ " (Difference: " ++ pyShowDiff a b ++ ")"

/-- Line 118: `[{path}] Value mismatch: '{obj1}' vs '{obj2}'` (reached only for
`str` and `None`; strings render as their contents). -/
def valMismatchMsg (path s1 s2 : String) : String :=
  "[" ++ path ++ "] Value mismatch: " ++ sq ++ s1 ++ sq ++ " vs " ++ sq ++ s2 ++ sq

/-- Line 27: `[{path}] Numeric array presence mismatch (one is empty).`. -/
def presenceMsg (path : String) : String :=
  "[" ++ path ++ "] Numeric array presence mismatch (one is empty)."

/-- Line 60: `[{path}] Statistical differences in numeric array:`. -/
def statsHeaderMsg (path : String) : String :=
  "[" ++ path ++ "] Statistical differences in numeric array:"

/-- Line 46: `  - Count: {c1} vs {c2}` (no delta, no fixed-precision format). -/
def countLineMsg (c1 c2 : Nat) : String :=
  "  - Count: " ++ toString c1 ++ " vs " ++ toString c2

/-- Line 50: `  - Mean: {m1:.4f} vs {m2:.4f} (Diff: {m2 - m1:.4f})`. -/
def meanLineMsg (m1 m2 : Rat) : String :=
  "  - Mean: " ++ fmt4 m1 ++ " vs " ++ fmt4 m2 ++ " (Diff: " ++ fmt4 (m2 - m1) ++ ")"

/-- Line 52: `  - Std Dev: {s1:.4f} vs {s2:.4f}` where `sᵢ = sqrt vᵢ` (no delta). -/
def stdLineMsg (v1 v2 : Rat) : String :=
  "  - Std Dev: " ++ fmt4Sqrt v1 ++ " vs " ++ fmt4Sqrt v2

/-- Line 54: `  - Min: {min1} vs {min2}` (raw scalar rendering, no delta). -/
def minLineMsg (m1 m2 : Rat) : String :=
  "  - Min: " ++ fmtStat m1 ++ " vs " ++ fmtStat m2

/-- Line 56: `  - Max: {max1} vs {max2}` (raw scalar rendering, no delta). -/
def maxLineMsg (m1 m2 : Rat) : String :=
  "  - Max: " ++ fmtStat m1 ++ " vs " ++ fmtStat m2

/-- `compare_numeric_array_stats` (source lines 19-61): statistical comparison
of two all-numeric arrays. -/
def compare_numeric_array_stats (arr1 arr2 : List Rat) (path : String) : List String :=
  if arr1 = [] ∧ arr2 = [] then []
  else if arr1 = [] ∨ arr2 = [] then [presenceMsg path]
  else
    let diffs :=
      (if arr1.length = arr2.length then []
       else [countLineMsg arr1.length arr2.length]) ++
      (if isclose (meanQ arr1) (meanQ arr2) then []
       else [meanLineMsg (meanQ arr1) (meanQ arr2)]) ++
      (if sqrtClose (varQ arr1) (varQ arr2) then []
       else [stdLineMsg (varQ arr1) (varQ arr2)]) ++
      (if isclose (minQ arr1) (minQ arr2) then []
       else [minLineMsg (minQ arr1) (minQ arr2)]) ++
      (if isclose (maxQ arr1) (maxQ arr2) then []
       else [maxLineMsg (maxQ arr1) (maxQ arr2)])
    if diffs = [] then [] else statsHeaderMsg path :: diffs

/-- Python dictionary lookup `kvs[k]` on an association list
(first matching key). -/
def lookup (k : String) : List (String × JVal) → Option JVal
  | [] => none
  | (k2, v) :: rest => if k = k2 then some v else lookup k rest

mutual

/-- `compare_json` (source lines 64-120).  Branches in source order:
1. type mismatch (line 72), 2. dict (line 77), 3. list (line 94),
4. numeric — `int`, `float` and (being an `int` subclass) `bool` (line 111),
5. other primitives — `str`, `None` (line 116).  The final catch-all of the
match is unreachable: the type-mismatch guard forces equal constructors. -/
def compare_json : JVal → JVal → String → List String
  | a, b, path =>
    if tyName a ≠ tyName b then [typeMismatchMsg path a b]
    else
      match a, b with
      | JDict kvs1, JDict kvs2 =>
          (((kvs2.map Prod.fst).filter
              (fun k => !((kvs1.map Prod.fst).contains k))).map (keyAddedMsg path)) ++
          (((kvs1.map Prod.fst).filter
              (fun k => !((kvs2.map Prod.fst).contains k))).map (keyRemovedMsg path)) ++
          compareCommon kvs1 kvs2 path
      | JList xs, JList ys =>
          if xs.all isNum && ys.all isNum then
            compare_numeric_array_stats (xs.map numVal) (ys.map numVal) path
          else
            (if xs.length = ys.length then []
             else [lenMismatchMsg path xs.length ys.length]) ++
            compareElems xs ys path 0
      | JInt n1, JInt n2 =>
          if isclose (n1 : Rat) (n2 : Rat) then []
          else [numMismatchMsg path (JInt n1) (JInt n2)]
      | JFloat q1, JFloat q2 =>
          if isclose q1 q2 then []
          else [numMismatchMsg path (JFloat q1) (JFloat q2)]
      | JBool b1, JBool b2 =>
          if isclose (numVal (JBool b1)) (numVal (JBool b2)) then []
          else [numMismatchMsg path (JBool b1) (JBool b2)]
      | JStr s1, JStr s2 =>
          if s1 = s2 then [] else [valMismatchMsg path s1 s2]
      | _, _ => []

/-- The element-wise loop of the list branch (source lines 107-108):
`for i, (item1, item2) in enumerate(zip(obj1, obj2))`. -/
def compareElems : List JVal → List JVal → String → Nat → List String
  | x :: xs, y :: ys, path, i =>
      compare_json x y (path ++ "[" ++ toString i ++ "]") ++
        compareElems xs ys path (i + 1)
  | _, _, _, _ => []

/-- The common-keys loop of the dict branch (source lines 90-91): entries of
the first dict whose key also occurs in the second are compared recursively at
`path + "." + key`; entries with a key absent from the second dict contribute
nothing here (they were reported as removed). -/
def compareCommon : List (String × JVal) → List (String × JVal) → String → List String
  | [], _, _ => []
  | (k, v) :: rest, kvs2, path =>
      (match lookup k kvs2 with
       | some w => compare_json v w (path ++ "." ++ k)
       | none => []) ++ compareCommon rest kvs2 path

end

mutual

/-- Well-formedness of a value as produced by Python's JSON parser: every
dictionary in the tree has pairwise-distinct keys (a structural guarantee of
Python dicts that association lists do not give for free). -/
def wfJ : JVal → Bool
  | JList xs => wfList xs
  | JDict kvs => decide ((kvs.map Prod.fst).Nodup) && wfKvs kvs
  | _ => true

/-- All elements of a list are well-formed. -/
def wfList : List JVal → Bool
  | [] => true
  | x :: xs => wfJ x && wfList xs

/-- All values of an association list are well-formed. -/
def wfKvs : List (String × JVal) → Bool
  | [] => true
  | (_, v) :: rest => wfJ v && wfKvs rest

end

/-! ## Bridge lemmas between the kernel-reducible primitives and Mathlib -/

theorem ratAbs_eq_abs (q : Rat) : ratAbs q = |q| := by
  unfold ratAbs
  split
  · exact (abs_of_neg (by assumption)).symm
  · exact (abs_of_nonneg (le_of_not_lt (by assumption))).symm

theorem isclose_iff (a b : Rat) :
    isclose a b = true ↔ |a - b| ≤ atol + rtol * |b| := by
  simp [isclose, ratAbs_eq_abs]

theorem atol_pos : (0 : Rat) < atol := by norm_num [atol]

theorem rtol_pos : (0 : Rat) < rtol := by norm_num [rtol]

theorem isclose_self (a : Rat) : isclose a a = true := by
  rw [isclose_iff]
  have h1 : |a - a| = 0 := by simp
  have h2 : (0 : Rat) ≤ rtol * |a| :=
    mul_nonneg (le_of_lt rtol_pos) (abs_nonneg a)
  rw [h1]
  linarith [atol_pos]

theorem varQ_nonneg (xs : List Rat) : 0 ≤ varQ xs := by
  unfold varQ
  apply div_nonneg
  · apply List.sum_nonneg
    intro x hx
    simp only [List.mem_map] at hx
    obtain ⟨y, _, rfl⟩ := hx
    exact mul_self_nonneg _
  · exact_mod_cast Nat.zero_le _

/-- `sqrtClose` is reflexive on nonnegative inputs (the variance case):
this is the rational counterpart of `|sqrt v - sqrt v| = 0 ≤ atol + rtol * sqrt v`. -/
theorem sqrtClose_self {v : Rat} (hv : 0 ≤ v) : sqrtClose v v = true := by
  unfold sqrtClose
  simp only [atol, rtol, Bool.and_eq_true, Bool.or_eq_true, decide_eq_true_eq]
  constructor
  · left
    nlinarith
  · by_cases hsmall : (1 - 1 / 100000) * (1 - 1 / 100000) * v ≤ (1 / 100000000) * (1 / 100000000)
    · exact Or.inl (Or.inl hsmall)
    · push_neg at hsmall
      by_cases hM : (1 - 1 / 100000) * (1 - 1 / 100000) * v + (1 / 100000000) * (1 / 100000000) - v ≤ 0
      · exact Or.inl (Or.inr hM)
      · push_neg at hM
        refine Or.inr ?_
        have hα : (1 / 39999600001000000 : Rat) ≤ v := by nlinarith
        have hβ : v ≤ (1 / 1000000 : Rat) := by nlinarith
        nlinarith [mul_nonneg (by linarith : (0:Rat) ≤ v - 1 / 39999600001000000)
          (by linarith : (0:Rat) ≤ 1 / 1000000 - v)]

/-! ## Concrete evaluations of `isclose` on boolean values -/

theorem isclose_one_zero : isclose 1 0 = false := by with_unfolding_all rfl

theorem isclose_zero_one : isclose 0 1 = false := by with_unfolding_all rfl

/-! ## Unfolding equations for the comparator, proved by `rfl`
(the automatically generated equations are unusable here, so each branch of
`compare_json` is restated as a definitional equality) -/

theorem cj_dict (path : String) (kvs1 kvs2 : List (String × JVal)) :
    compare_json (JDict kvs1) (JDict kvs2) path =
      (((kvs2.map Prod.fst).filter
          (fun k => !((kvs1.map Prod.fst).contains k))).map (keyAddedMsg path)) ++
      (((kvs1.map Prod.fst).filter
          (fun k => !((kvs2.map Prod.fst).contains k))).map (keyRemovedMsg path)) ++
      compareCommon kvs1 kvs2 path := rfl

theorem cj_list (path : String) (xs ys : List JVal) :
    compare_json (JList xs) (JList ys) path =
      if xs.all isNum && ys.all isNum then
        compare_numeric_array_stats (xs.map numVal) (ys.map numVal) path
      else
        (if xs.length = ys.length then []
         else [lenMismatchMsg path xs.length ys.length]) ++
          compareElems xs ys path 0 := rfl

theorem cj_int (path : String) (n1 n2 : Int) :
    compare_json (JInt n1) (JInt n2) path =
      if isclose (n1 : Rat) (n2 : Rat) then []
      else [numMismatchMsg path (JInt n1) (JInt n2)] := rfl

theorem cj_float (path : String) (q1 q2 : Rat) :
    compare_json (JFloat q1) (JFloat q2) path =
      if isclose q1 q2 then [] else [numMismatchMsg path (JFloat q1) (JFloat q2)] := rfl

theorem cj_bool (path : String) (b1 b2 : Bool) :
    compare_json (JBool b1) (JBool b2) path =
      if isclose (numVal (JBool b1)) (numVal (JBool b2)) then []
      else [numMismatchMsg path (JBool b1) (JBool b2)] := rfl

theorem cj_str (path : String) (s1 s2 : String) :
    compare_json (JStr s1) (JStr s2) path =
      if s1 = s2 then [] else [valMismatchMsg path s1 s2] := rfl

theorem cj_null (path : String) : compare_json JNull JNull path = [] := rfl

theorem ce_nil_left (path : String) (ys : List JVal) (i : Nat) :
    compareElems [] ys path i = [] := rfl

theorem ce_nil_right (path : String) (x : JVal) (xs : List JVal) (i : Nat) :
    compareElems (x :: xs) [] path i = [] := rfl

theorem ce_cons (path : String) (x y : JVal) (xs ys : List JVal) (i : Nat) :
    compareElems (x :: xs) (y :: ys) path i =
      compare_json x y (path ++ "[" ++ toString i ++ "]") ++
        compareElems xs ys path (i + 1) := rfl

theorem cc_nil (path : String) (kvs2 : List (String × JVal)) :
    compareCommon [] kvs2 path = [] := rfl

theorem cc_cons (path k : String) (v : JVal) (rest kvs2 : List (String × JVal)) :
    compareCommon ((k, v) :: rest) kvs2 path =
      (match lookup k kvs2 with
       | some w => compare_json v w (path ++ "." ++ k)
       | none => []) ++ compareCommon rest kvs2 path := rfl

/-! ## Claim theorems (easy branches) -/

/-- C2: Type-mismatch short-circuit — whenever the kinds of `a` and `b`
differ, `compare_json` returns exactly the one type-mismatch record at `path`
and does not recurse into the subtrees (no further records appear). -/
theorem C2_type_mismatch_short_circuit (a b : JVal) (path : String)
    (h : tyName a ≠ tyName b) :
    compare_json a b path = [typeMismatchMsg path a b] := by
  cases a <;> cases b <;> first
    | exact absurd rfl h
    | rfl

/-- Witness for C2 at the concrete pair `1` vs `"x"`. -/
theorem C2_witness :
    tyName (JInt 1) ≠ tyName (JStr "x") ∧
      compare_json (JInt 1) (JStr "x") "root" =
        [typeMismatchMsg "root" (JInt 1) (JStr "x")] :=
  ⟨by decide, C2_type_mismatch_short_circuit (JInt 1) (JStr "x") "root" (by decide)⟩

/-- C3: Number-vs-Number tolerance rule — for two numbers of the same Python
type (`float` vs `float`, `int` vs `int`), `compare_json` emits nothing when
`|a - b| <= atol + rtol * |b|` with `atol = 1e-8`, `rtol = 1e-5`, and otherwise
emits exactly one record at `path` stating both values and the signed
difference `b - a` (carried by `numMismatchMsg` via `pyShowDiff`). -/
theorem C3_numeric_tolerance (path : String) :
    (∀ a b : Rat, compare_json (JFloat a) (JFloat b) path =
      if |a - b| ≤ 1 / 100000000 + 1 / 100000 * |b| then []
      else [numMismatchMsg path (JFloat a) (JFloat b)]) ∧
    (∀ m n : Int, compare_json (JInt m) (JInt n) path =
      if |(m : Rat) - (n : Rat)| ≤ 1 / 100000000 + 1 / 100000 * |(n : Rat)| then []
      else [numMismatchMsg path (JInt m) (JInt n)]) := by
  constructor
  · intro a b
    rw [cj_float]
    exact if_congr (by rw [isclose_iff, atol, rtol]) rfl rfl
  · intro m n
    rw [cj_int]
    exact if_congr (by rw [isclose_iff, atol, rtol]) rfl rfl

/-- C8: Empty numeric-array edge cases — `compare_numeric_array_stats` returns
`[]` on two empty arrays, and exactly one presence-mismatch record at `path`
when exactly one of the two arrays is empty. -/
theorem C8_empty_numeric_arrays (path : String) :
    compare_numeric_array_stats [] [] path = [] ∧
    (∀ (x : Rat) (xs : List Rat),
      compare_numeric_array_stats [] (x :: xs) path = [presenceMsg path] ∧
      compare_numeric_array_stats (x :: xs) [] path = [presenceMsg path]) := by
  refine ⟨?_, fun x xs => ⟨?_, ?_⟩⟩ <;>
    simp [compare_numeric_array_stats]

/-- C10 (implicit): `int` and `float` are distinct kinds in the dispatch —
comparing an integer against a float yields exactly one type-mismatch record
naming both kinds, for every pair of values (so the numeric tolerance rule is
never consulted across the int/float distinction). -/
theorem C10_int_float_distinct (n : Int) (q : Rat) (path : String) :
    compare_json (JInt n) (JFloat q) path = [typeMismatchMsg path (JInt n) (JFloat q)] ∧
    compare_json (JFloat q) (JInt n) path = [typeMismatchMsg path (JFloat q) (JInt n)] ∧
    tyName (JInt n) = "int" ∧ tyName (JFloat q) = "float" := by
  exact ⟨rfl, rfl, rfl, rfl⟩

/-- C6 (amended): `str` and `None` compare by exact equality and an unequal
`str` pair yields exactly one value-mismatch record; `bool` values, however,
are routed through the numeric branch (Python's `bool` is a subclass of
`int`), so an unequal pair yields one numeric-mismatch record — which for
booleans coincides with exact inequality. -/
theorem C6_primitives_amended (path : String) :
    (∀ s1 s2 : String, compare_json (JStr s1) (JStr s2) path =
        if s1 = s2 then [] else [valMismatchMsg path s1 s2]) ∧
    compare_json JNull JNull path = [] ∧
    (∀ b1 b2 : Bool, compare_json (JBool b1) (JBool b2) path =
        if b1 = b2 then [] else [numMismatchMsg path (JBool b1) (JBool b2)]) := by
  refine ⟨fun s1 s2 => cj_str path s1 s2, cj_null path, fun b1 b2 => ?_⟩
  rw [cj_bool]
  cases b1 <;> cases b2 <;>
    simp [numVal, isclose_self, isclose_one_zero, isclose_zero_one]

/-- Counterexample for C6 as stated: two unequal booleans produce a
numeric-mismatch record (via `np.isclose` on their 0/1 values), not the
value-mismatch record the claim prescribes for Bool. -/
theorem C6_primitive_counterexample :
    compare_json (JBool true) (JBool false) "root" =
      ["[root] Numeric value mismatch: True vs False (Difference: -1)"] ∧
    numMismatchMsg "root" (JBool true) (JBool false) ≠
      valMismatchMsg "root" "True" "False" := by
  constructor
  · with_unfolding_all rfl
  · decide

/-! ## Reflexivity infrastructure (claim C1) -/

theorem lookup_cons (k k0 : String) (v0 : JVal) (rest : List (String × JVal)) :
    lookup k ((k0, v0) :: rest) = if k = k0 then some v0 else lookup k rest := rfl

theorem lookup_mem_nodup : ∀ {kvs : List (String × JVal)} {k : String} {v : JVal},
    (kvs.map Prod.fst).Nodup → (k, v) ∈ kvs → lookup k kvs = some v := by
  intro kvs
  induction kvs with
  | nil => intro k v _ h; cases h
  | cons e rest ih =>
      intro k v hnd hmem
      obtain ⟨k0, v0⟩ := e
      rw [lookup_cons]
      rw [List.map_cons, List.nodup_cons] at hnd
      by_cases hk : k = k0
      · subst hk
        rw [if_pos rfl]
        rcases List.mem_cons.mp hmem with heq | htail
        · cases heq; rfl
        · exact absurd (List.mem_map_of_mem Prod.fst htail) hnd.1
      · rw [if_neg hk]
        rcases List.mem_cons.mp hmem with heq | htail
        · exact absurd (congrArg Prod.fst heq) hk
        · exact ih hnd.2 htail

theorem wfJ_list (xs : List JVal) : wfJ (JList xs) = wfList xs := rfl

theorem wfJ_dict (kvs : List (String × JVal)) :
    wfJ (JDict kvs) = (decide ((kvs.map Prod.fst).Nodup) && wfKvs kvs) := rfl

theorem wfList_mem : ∀ {xs : List JVal}, wfList xs = true →
    ∀ {x : JVal}, x ∈ xs → wfJ x = true := by
  intro xs
  induction xs with
  | nil => intro _ x hx; cases hx
  | cons y ys ih =>
      intro h x hx
      have h' : wfJ y = true ∧ wfList ys = true := by
        simpa [wfList, Bool.and_eq_true] using h
      rcases List.mem_cons.mp hx with rfl | htail
      · exact h'.1
      · exact ih h'.2 htail

theorem wfKvs_mem : ∀ {kvs : List (String × JVal)}, wfKvs kvs = true →
    ∀ {e : String × JVal}, e ∈ kvs → wfJ e.2 = true := by
  intro kvs
  induction kvs with
  | nil => intro _ e he; cases he
  | cons p rest ih =>
      intro h e he
      obtain ⟨k0, v0⟩ := p
      have h' : wfJ v0 = true ∧ wfKvs rest = true := by
        simpa [wfKvs, Bool.and_eq_true] using h
      rcases List.mem_cons.mp he with rfl | htail
      · exact h'.1
      · exact ih h'.2 htail

/-- Comparing an all-numeric array against itself yields no statistical
differences. -/
theorem stats_self (l : List Rat) (path : String) :
    compare_numeric_array_stats l l path = [] := by
  cases l with
  | nil => simp [compare_numeric_array_stats]
  | cons x xs =>
      unfold compare_numeric_array_stats
      simp [isclose_self, sqrtClose_self (varQ_nonneg (x :: xs))]

theorem filter_not_contains_self (l : List String) :
    l.filter (fun k => !(l.contains k)) = [] := by
  rw [List.filter_eq_nil_iff]
  intro a ha
  simp [ha]

theorem compareElems_self (xs : List JVal)
    (h : ∀ x ∈ xs, ∀ p, compare_json x x p = []) :
    ∀ (path : String) (i : Nat), compareElems xs xs path i = [] := by
  induction xs with
  | nil => intro path i; exact ce_nil_left path [] i
  | cons x rest ih =>
      intro path i
      rw [ce_cons, h x (List.mem_cons_self x rest)]
      simpa using ih (fun y hy => h y (List.mem_cons_of_mem x hy)) path (i + 1)

theorem compareCommon_self (kvs : List (String × JVal))
    (hnd : (kvs.map Prod.fst).Nodup) :
    ∀ pending : List (String × JVal), (∀ e ∈ pending, e ∈ kvs) →
      (∀ e ∈ pending, ∀ p, compare_json e.2 e.2 p = []) →
      ∀ path, compareCommon pending kvs path = [] := by
  intro pending
  induction pending with
  | nil => intro _ _ path; exact cc_nil path kvs
  | cons e rest ih =>
      intro hsub hrefl path
      obtain ⟨k, v⟩ := e
      rw [cc_cons, lookup_mem_nodup hnd (hsub (k, v) (List.mem_cons_self _ _))]
      have h1 : compare_json v v (path ++ "." ++ k) = [] :=
        hrefl (k, v) (List.mem_cons_self _ _) (path ++ "." ++ k)
      simpa [h1] using ih (fun x hx => hsub x (List.mem_cons_of_mem _ hx))
        (fun x hx => hrefl x (List.mem_cons_of_mem _ hx)) path

theorem sizeOf_mem_list {x : JVal} {xs : List JVal} (h : x ∈ xs) :
    sizeOf x < sizeOf (JList xs) := by
  have h1 : sizeOf x < sizeOf xs := List.sizeOf_lt_of_mem h
  have h2 : sizeOf (JList xs) = 1 + sizeOf xs := by simp
  omega

theorem sizeOf_mem_dict {k : String} {v : JVal} {kvs : List (String × JVal)}
    (h : (k, v) ∈ kvs) : sizeOf v < sizeOf (JDict kvs) := by
  have h1 : sizeOf (k, v) < sizeOf kvs := List.sizeOf_lt_of_mem h
  have h2 : sizeOf (JDict kvs) = 1 + sizeOf kvs := by simp
  have h3 : sizeOf (k, v) = 1 + sizeOf k + sizeOf v := by simp
  omega

theorem compare_json_self_aux :
    ∀ (N : Nat) (v : JVal), sizeOf v ≤ N → wfJ v = true →
      ∀ path, compare_json v v path = [] := by
  intro N
  induction N with
  | zero =>
      intro v hv
      exact absurd hv (by cases v <;> simp)
  | succ N ih =>
      intro v hsize hwf path
      cases v with
      | JNull => exact cj_null path
      | JBool b => rw [cj_bool]; simp [isclose_self]
      | JInt n => rw [cj_int]; simp [isclose_self]
      | JFloat q => rw [cj_float]; simp [isclose_self]
      | JStr s => rw [cj_str]; simp
      | JList xs =>
          rw [cj_list]
          have hx : ∀ x ∈ xs, ∀ p, compare_json x x p = [] := by
            intro x hmem p
            refine ih x ?_ (wfList_mem (by simpa [wfJ_list] using hwf) hmem) p
            have := sizeOf_mem_list hmem
            omega
          split
          · exact stats_self _ path
          · simp [compareElems_self xs hx path 0]
      | JDict kvs =>
          rw [cj_dict]
          have hwf' : (kvs.map Prod.fst).Nodup ∧ wfKvs kvs = true := by
            simpa [wfJ_dict, Bool.and_eq_true] using hwf
          have hv : ∀ e ∈ kvs, ∀ p, compare_json e.2 e.2 p = [] := by
            intro e hmem p
            obtain ⟨k, v⟩ := e
            refine ih v ?_ (wfKvs_mem hwf'.2 hmem) p
            have := sizeOf_mem_dict hmem
            omega
          rw [filter_not_contains_self,
            compareCommon_self kvs hwf'.1 kvs (fun _ he => he) hv path]
          simp

/-- C1: Reflexivity — for every well-formed value `v` (every dictionary in the
tree has pairwise-distinct keys, as Python dictionaries guarantee),
`compare_json v v path` returns the empty list of differences. -/
theorem C1_reflexivity (v : JVal) (h : wfJ v = true) (path : String) :
    compare_json v v path = [] :=
  compare_json_self_aux (sizeOf v) v le_rfl h path

/-- Witness for C1 on a concrete nested value containing a dictionary, an
all-numeric list, a mixed list, and primitives. -/
theorem C1_reflexivity_witness :
    wfJ (JDict [("a", JList [JInt 1, JFloat (1 / 2), JBool true]),
      ("b", JStr "x"), ("c", JList [JStr "y", JNull, JDict []])]) = true ∧
    compare_json
      (JDict [("a", JList [JInt 1, JFloat (1 / 2), JBool true]),
        ("b", JStr "x"), ("c", JList [JStr "y", JNull, JDict []])])
      (JDict [("a", JList [JInt 1, JFloat (1 / 2), JBool true]),
        ("b", JStr "x"), ("c", JList [JStr "y", JNull, JDict []])]) "root" = [] :=
  ⟨by decide, C1_reflexivity _ (by decide) "root"⟩

/-! ## Sequence dispatch (claim C4) -/

/-- The element-wise loop revisited as an indexed traversal of the common
prefix `0 .. min(len, len) - 1`. -/
theorem compareElems_eq (path : String) :
    ∀ (xs ys : List JVal) (i : Nat),
      compareElems xs ys path i =
        (List.range (min xs.length ys.length)).flatMap
          (fun j => compare_json (xs.getD j JNull) (ys.getD j JNull)
            (path ++ "[" ++ toString (i + j) ++ "]")) := by
  intro xs
  induction xs with
  | nil => intro ys i; simp [ce_nil_left]
  | cons x rest ih =>
      intro ys i
      cases ys with
      | nil => simp [ce_nil_right]
      | cons y ys =>
          rw [ce_cons, ih ys (i + 1)]
          have hmin : min (x :: rest).length (y :: ys).length =
              min rest.length ys.length + 1 := by
            simp [Nat.succ_min_succ]
          rw [hmin, List.range_succ_eq_map, List.flatMap_cons, List.flatMap_map]
          simp only [List.getD_cons_zero, List.getD_cons_succ, Nat.add_zero,
            Function.comp]
          congr 1
          refine List.flatMap_congr fun j _ => ?_
          have hj : i + 1 + j = i + (j + 1) := by omega
          rw [hj]

/-- C4: Sequence dispatch and element-wise fallback — two sequences whose
elements are all numeric (an empty sequence counting as all-numeric) are
delegated wholesale to the statistical comparator, with no element-wise
diffing; otherwise one length-mismatch record is emitted when the lengths
differ, the comparison recurses pairwise over indices `0 .. min - 1` with the
path extended by `[i]`, and elements beyond the shorter length are not
individually reported. -/
theorem C4_sequence_dispatch (xs ys : List JVal) (path : String) :
    compare_json (JList xs) (JList ys) path =
      if (∀ x ∈ xs, isNum x = true) ∧ (∀ y ∈ ys, isNum y = true) then
        compare_numeric_array_stats (xs.map numVal) (ys.map numVal) path
      else
        (if xs.length = ys.length then []
         else [lenMismatchMsg path xs.length ys.length]) ++
          (List.range (min xs.length ys.length)).flatMap
            (fun i => compare_json (xs.getD i JNull) (ys.getD i JNull)
              (path ++ "[" ++ toString i ++ "]")) := by
  rw [cj_list, compareElems_eq]
  refine if_congr ?_ rfl ?_
  · simp [List.all_eq_true, Bool.and_eq_true]
  · simp only [Nat.zero_add]

/-! ## Statistical grouping (claim C5) -/

theorem ite_nil_iff {c : Prop} [Decidable c] (m : String) :
    ((if c then ([] : List String) else [m]) = []) ↔ c := by
  split <;> simp_all

/-- On two nonempty arrays the statistical comparator reduces to the
grouped-diff computation (definitional unfolding of the non-empty branch). -/
theorem stats_cons_cons (x1 x2 : Rat) (t1 t2 : List Rat) (path : String) :
    compare_numeric_array_stats (x1 :: t1) (x2 :: t2) path =
      if ((if (x1 :: t1).length = (x2 :: t2).length then ([] : List String)
           else [countLineMsg (x1 :: t1).length (x2 :: t2).length]) ++
          (if isclose (meanQ (x1 :: t1)) (meanQ (x2 :: t2)) then []
           else [meanLineMsg (meanQ (x1 :: t1)) (meanQ (x2 :: t2))]) ++
          (if sqrtClose (varQ (x1 :: t1)) (varQ (x2 :: t2)) then []
           else [stdLineMsg (varQ (x1 :: t1)) (varQ (x2 :: t2))]) ++
          (if isclose (minQ (x1 :: t1)) (minQ (x2 :: t2)) then []
           else [minLineMsg (minQ (x1 :: t1)) (minQ (x2 :: t2))]) ++
          (if isclose (maxQ (x1 :: t1)) (maxQ (x2 :: t2)) then []
           else [maxLineMsg (maxQ (x1 :: t1)) (maxQ (x2 :: t2))])) = [] then []
      else
        statsHeaderMsg path ::
          ((if (x1 :: t1).length = (x2 :: t2).length then ([] : List String)
            else [countLineMsg (x1 :: t1).length (x2 :: t2).length]) ++
           (if isclose (meanQ (x1 :: t1)) (meanQ (x2 :: t2)) then []
            else [meanLineMsg (meanQ (x1 :: t1)) (meanQ (x2 :: t2))]) ++
           (if sqrtClose (varQ (x1 :: t1)) (varQ (x2 :: t2)) then []
            else [stdLineMsg (varQ (x1 :: t1)) (varQ (x2 :: t2))]) ++
           (if isclose (minQ (x1 :: t1)) (minQ (x2 :: t2)) then []
            else [minLineMsg (minQ (x1 :: t1)) (minQ (x2 :: t2))]) ++
           (if isclose (maxQ (x1 :: t1)) (maxQ (x2 :: t2)) then []
            else [maxLineMsg (maxQ (x1 :: t1)) (maxQ (x2 :: t2))])) := rfl

/-- Shape of a grouped diff: empty iff every condition holds, and the header
is prepended exactly when at least one sub-line is present. -/
theorem grouped_spec (c1 c2 c3 c4 c5 : Prop)
    [Decidable c1] [Decidable c2] [Decidable c3] [Decidable c4] [Decidable c5]
    (m1 m2 m3 m4 m5 hd : String) :
    ((if ((if c1 then ([] : List String) else [m1]) ++ (if c2 then [] else [m2]) ++
          (if c3 then [] else [m3]) ++ (if c4 then [] else [m4]) ++
          (if c5 then [] else [m5])) = [] then ([] : List String)
      else hd :: ((if c1 then ([] : List String) else [m1]) ++
          (if c2 then [] else [m2]) ++ (if c3 then [] else [m3]) ++
          (if c4 then [] else [m4]) ++ (if c5 then [] else [m5]))) = [] ↔
      (c1 ∧ c2 ∧ c3 ∧ c4 ∧ c5)) ∧
    ((if ((if c1 then ([] : List String) else [m1]) ++ (if c2 then [] else [m2]) ++
          (if c3 then [] else [m3]) ++ (if c4 then [] else [m4]) ++
          (if c5 then [] else [m5])) = [] then ([] : List String)
      else hd :: ((if c1 then ([] : List String) else [m1]) ++
          (if c2 then [] else [m2]) ++ (if c3 then [] else [m3]) ++
          (if c4 then [] else [m4]) ++ (if c5 then [] else [m5]))) ≠ [] →
      (if ((if c1 then ([] : List String) else [m1]) ++ (if c2 then [] else [m2]) ++
          (if c3 then [] else [m3]) ++ (if c4 then [] else [m4]) ++
          (if c5 then [] else [m5])) = [] then ([] : List String)
      else hd :: ((if c1 then ([] : List String) else [m1]) ++
          (if c2 then [] else [m2]) ++ (if c3 then [] else [m3]) ++
          (if c4 then [] else [m4]) ++ (if c5 then [] else [m5]))) =
        hd :: ((if c1 then ([] : List String) else [m1]) ++
          (if c2 then [] else [m2]) ++ (if c3 then [] else [m3]) ++
          (if c4 then [] else [m4]) ++ (if c5 then [] else [m5]))) := by
  by_cases h1 : c1 <;> by_cases h2 : c2 <;> by_cases h3 : c3 <;>
    by_cases h4 : c4 <;> by_cases h5 : c5 <;>
    simp [h1, h2, h3, h4, h5]

/-- C5 (corrected): the claim fails on the code — the Count sub-line carries
no signed delta and no fixed-precision formatting.  Concretely, for `[0, 1]`
vs `[0, 0, 1, 1]` only the count differs, and the emitted sub-line is
`  - Count: 2 vs 4`, not a 4-decimal rendering with a `+2` delta. -/
theorem C5_stats_counterexample :
    compare_numeric_array_stats [0, 1] [0, 0, 1, 1] "root" =
      ["[root] Statistical differences in numeric array:", "  - Count: 2 vs 4"] ∧
    "  - Count: 2 vs 4 (Diff: 2)" ∉ compare_numeric_array_stats [0, 1] [0, 0, 1, 1] "root" ∧
    countLineMsg 2 4 ≠ "  - Count: 2.0000 vs 4.0000" := by
  have h : compare_numeric_array_stats [0, 1] [0, 0, 1, 1] "root" =
      ["[root] Statistical differences in numeric array:", "  - Count: 2 vs 4"] := by
    with_unfolding_all rfl
  refine ⟨h, ?_, by decide⟩
  rw [h]
  decide

/-- C5 (amended): on two non-empty numeric arrays, the result is empty iff no
statistic differs (count by exact equality; mean, std-dev, min, max by the
tolerance rule), and otherwise it is the grouped header at `path` followed by
exactly one sub-line per differing statistic, in the order count, mean,
std-dev, min, max — where `meanLineMsg` renders both means and the signed
delta `mean_b - mean_a` to four decimal places, `stdLineMsg` renders both
standard deviations to four decimal places without a delta, and the count,
min and max sub-lines state the raw values with no delta. -/
theorem C5_stats_grouping_amended (arr1 arr2 : List Rat) (path : String)
    (h1 : arr1 ≠ []) (h2 : arr2 ≠ []) :
    (compare_numeric_array_stats arr1 arr2 path = [] ↔
      (arr1.length = arr2.length ∧ isclose (meanQ arr1) (meanQ arr2) = true ∧
        sqrtClose (varQ arr1) (varQ arr2) = true ∧
        isclose (minQ arr1) (minQ arr2) = true ∧
        isclose (maxQ arr1) (maxQ arr2) = true)) ∧
    (compare_numeric_array_stats arr1 arr2 path ≠ [] →
      compare_numeric_array_stats arr1 arr2 path =
        statsHeaderMsg path ::
          ((if arr1.length = arr2.length then []
            else [countLineMsg arr1.length arr2.length]) ++
           (if isclose (meanQ arr1) (meanQ arr2) then []
            else [meanLineMsg (meanQ arr1) (meanQ arr2)]) ++
           (if sqrtClose (varQ arr1) (varQ arr2) then []
            else [stdLineMsg (varQ arr1) (varQ arr2)]) ++
           (if isclose (minQ arr1) (minQ arr2) then []
            else [minLineMsg (minQ arr1) (minQ arr2)]) ++
           (if isclose (maxQ arr1) (maxQ arr2) then []
            else [maxLineMsg (maxQ arr1) (maxQ arr2)]))) := by
  cases arr1 with
  | nil => exact absurd rfl h1
  | cons x1 t1 =>
    cases arr2 with
    | nil => exact absurd rfl h2
    | cons x2 t2 =>
      rw [stats_cons_cons]
      exact grouped_spec _ _ _ _ _ _ _ _ _ _ _

/-- Witness for the amended C5 at `[0, 1]` vs `[0, 0, 1, 1]`. -/
theorem C5_stats_witness :
    ([0, 1] : List Rat) ≠ [] ∧ ([0, 0, 1, 1] : List Rat) ≠ [] ∧
    ((compare_numeric_array_stats [0, 1] [0, 0, 1, 1] "root" = [] ↔
      (([0, 1] : List Rat).length = ([0, 0, 1, 1] : List Rat).length ∧
        isclose (meanQ [0, 1]) (meanQ [0, 0, 1, 1]) = true ∧
        sqrtClose (varQ [0, 1]) (varQ [0, 0, 1, 1]) = true ∧
        isclose (minQ [0, 1]) (minQ [0, 0, 1, 1]) = true ∧
        isclose (maxQ [0, 1]) (maxQ [0, 0, 1, 1]) = true)) ∧
    (compare_numeric_array_stats [0, 1] [0, 0, 1, 1] "root" ≠ [] →
      compare_numeric_array_stats [0, 1] [0, 0, 1, 1] "root" =
        statsHeaderMsg "root" ::
          ((if ([0, 1] : List Rat).length = ([0, 0, 1, 1] : List Rat).length then []
            else [countLineMsg ([0, 1] : List Rat).length ([0, 0, 1, 1] : List Rat).length]) ++
           (if isclose (meanQ [0, 1]) (meanQ [0, 0, 1, 1]) then []
            else [meanLineMsg (meanQ [0, 1]) (meanQ [0, 0, 1, 1])]) ++
           (if sqrtClose (varQ [0, 1]) (varQ [0, 0, 1, 1]) then []
            else [stdLineMsg (varQ [0, 1]) (varQ [0, 0, 1, 1])]) ++
           (if isclose (minQ [0, 1]) (minQ [0, 0, 1, 1]) then []
            else [minLineMsg (minQ [0, 1]) (minQ [0, 0, 1, 1])]) ++
           (if isclose (maxQ [0, 1]) (maxQ [0, 0, 1, 1]) then []
            else [maxLineMsg (maxQ [0, 1]) (maxQ [0, 0, 1, 1])])))) :=
  ⟨by decide, by decide,
    C5_stats_grouping_amended [0, 1] [0, 0, 1, 1] "root" (by decide) (by decide)⟩

/-! ## Mapping key-set completeness (claim C7) -/

/-- If two concatenations agree and `s` is at most as long as `t`, then the
reversed suffixes agree on any common prefix length. -/
theorem rev_take_eq_of_append_eq {u v s t : List Char} (h : u ++ s = v ++ t)
    {n : Nat} (hns : n ≤ s.length) (hnt : n ≤ t.length) :
    s.reverse.take n = t.reverse.take n := by
  have hrev : s.reverse ++ u.reverse = t.reverse ++ v.reverse := by
    rw [← List.reverse_append, ← List.reverse_append, h]
  have hs : (s.reverse ++ u.reverse).take n = s.reverse.take n :=
    List.take_append_of_le_length (by simpa using hns)
  have ht : (t.reverse ++ v.reverse).take n = t.reverse.take n :=
    List.take_append_of_le_length (by simpa using hnt)
  rw [← hs, ← ht, hrev]

theorem keyAddedMsg_data (p k : String) :
    (keyAddedMsg p k).data =
      ("[".data ++ p.data ++ "] Key ".data ++ sq.data) ++
        (k.data ++ (sq.data ++ " added in second file.".data)) := by
  simp [keyAddedMsg, String.data_append, List.append_assoc]

theorem keyRemovedMsg_data (p k : String) :
    (keyRemovedMsg p k).data =
      ("[".data ++ p.data ++ "] Key ".data ++ sq.data) ++
        (k.data ++ (sq.data ++ " removed in second file.".data)) := by
  simp [keyRemovedMsg, String.data_append, List.append_assoc]

theorem keyAddedMsg_inj {p k1 k2 : String}
    (h : keyAddedMsg p k1 = keyAddedMsg p k2) : k1 = k2 := by
  have hd := congrArg String.data h
  rw [keyAddedMsg_data, keyAddedMsg_data] at hd
  exact String.ext (List.append_cancel_right (List.append_cancel_left hd))

theorem keyRemovedMsg_inj {p k1 k2 : String}
    (h : keyRemovedMsg p k1 = keyRemovedMsg p k2) : k1 = k2 := by
  have hd := congrArg String.data h
  rw [keyRemovedMsg_data, keyRemovedMsg_data] at hd
  exact String.ext (List.append_cancel_right (List.append_cancel_left hd))

/-- An added-key record can never coincide with a removed-key record,
whatever the two keys are: the message suffixes differ. -/
theorem keyAddedMsg_ne_keyRemovedMsg (p k1 k2 : String) :
    keyAddedMsg p k1 ≠ keyRemovedMsg p k2 := by
  intro h
  have hd := congrArg String.data h
  rw [keyAddedMsg_data, keyRemovedMsg_data] at hd
  have h2 := List.append_cancel_left hd
  have h3 := rev_take_eq_of_append_eq h2 (n := 19) (by decide) (by decide)
  exact absurd h3 (by decide)

/-- The common-keys loop as a flat traversal of the first dict's entries. -/
theorem compareCommon_eq (kvs2 : List (String × JVal)) (path : String) :
    ∀ pending, compareCommon pending kvs2 path =
      pending.flatMap (fun e =>
        match lookup e.1 kvs2 with
        | some w => compare_json e.2 w (path ++ "." ++ e.1)
        | none => []) := by
  intro pending
  induction pending with
  | nil => simp [cc_nil]
  | cons e rest ih =>
      obtain ⟨k, v⟩ := e
      rw [cc_cons, ih, List.flatMap_cons]

theorem filter_length_card {K1 K2 : List String} (hnd2 : K2.Nodup) :
    (K2.filter (fun k => !K1.contains k)).length =
      (K2.toFinset \ K1.toFinset).card := by
  have h1 : K2.toFinset \ K1.toFinset =
      K2.toFinset.filter (fun x => (!K1.contains x) = true) := by
    rw [Finset.sdiff_eq_filter]
    apply Finset.filter_congr
    intro x _
    simp [List.mem_toFinset]
  rw [h1, ← List.toFinset_filter, List.toFinset_card_of_nodup (hnd2.filter _)]

/-- C7: Mapping key-set completeness — on two well-formed dicts the result is
the added-key records, then the removed-key records, then the concatenated
recursive results for the common keys (each at `path + "." + key`); the number
of added records is exactly `|keys(b) \ keys(a)|`, the number of removed
records exactly `|keys(a) \ keys(b)|`, and the added/removed records are
pairwise distinct (no duplicates). -/
theorem C7_mapping_key_completeness (kvs1 kvs2 : List (String × JVal))
    (path : String)
    (h1 : (kvs1.map Prod.fst).Nodup) (h2 : (kvs2.map Prod.fst).Nodup) :
    compare_json (JDict kvs1) (JDict kvs2) path =
      (((kvs2.map Prod.fst).filter
          (fun k => !((kvs1.map Prod.fst).contains k))).map (keyAddedMsg path)) ++
      (((kvs1.map Prod.fst).filter
          (fun k => !((kvs2.map Prod.fst).contains k))).map (keyRemovedMsg path)) ++
      kvs1.flatMap (fun e =>
        match lookup e.1 kvs2 with
        | some w => compare_json e.2 w (path ++ "." ++ e.1)
        | none => []) ∧
    (((kvs2.map Prod.fst).filter
        (fun k => !((kvs1.map Prod.fst).contains k))).map (keyAddedMsg path)).length =
      ((kvs2.map Prod.fst).toFinset \ (kvs1.map Prod.fst).toFinset).card ∧
    (((kvs1.map Prod.fst).filter
        (fun k => !((kvs2.map Prod.fst).contains k))).map (keyRemovedMsg path)).length =
      ((kvs1.map Prod.fst).toFinset \ (kvs2.map Prod.fst).toFinset).card ∧
    ((((kvs2.map Prod.fst).filter
        (fun k => !((kvs1.map Prod.fst).contains k))).map (keyAddedMsg path)) ++
     (((kvs1.map Prod.fst).filter
        (fun k => !((kvs2.map Prod.fst).contains k))).map (keyRemovedMsg path))).Nodup := by
  refine ⟨?_, ?_, ?_, ?_⟩
  · rw [cj_dict, compareCommon_eq]
  · rw [List.length_map]
    exact filter_length_card h2
  · rw [List.length_map]
    exact filter_length_card h1
  · apply List.Nodup.append
    · exact List.Nodup.map_on
        (fun x _ y _ hxy => keyAddedMsg_inj hxy) (h2.filter _)
    · exact List.Nodup.map_on
        (fun x _ y _ hxy => keyRemovedMsg_inj hxy) (h1.filter _)
    · rw [List.disjoint_left]
      intro a ha hr
      obtain ⟨k1, _, rfl⟩ := List.mem_map.mp ha
      obtain ⟨k2, _, hk2⟩ := List.mem_map.mp hr
      exact keyAddedMsg_ne_keyRemovedMsg path k1 k2 hk2.symm

/-- Witness for C7 at `{"a": null}` vs `{"b": null}`. -/
theorem C7_mapping_witness :
    (([("a", JNull)] : List (String × JVal)).map Prod.fst).Nodup ∧
    (([("b", JNull)] : List (String × JVal)).map Prod.fst).Nodup ∧
    (compare_json (JDict [("a", JNull)]) (JDict [("b", JNull)]) "root" =
      ((([("b", JNull)] : List (String × JVal)).map Prod.fst).filter
          (fun k => !((([("a", JNull)] : List (String × JVal)).map Prod.fst).contains k))).map
        (keyAddedMsg "root") ++
      ((([("a", JNull)] : List (String × JVal)).map Prod.fst).filter
          (fun k => !((([("b", JNull)] : List (String × JVal)).map Prod.fst).contains k))).map
        (keyRemovedMsg "root") ++
      ([("a", JNull)] : List (String × JVal)).flatMap (fun e =>
        match lookup e.1 [("b", JNull)] with
        | some w => compare_json e.2 w ("root" ++ "." ++ e.1)
        | none => []) ∧
    (((([("b", JNull)] : List (String × JVal)).map Prod.fst).filter
        (fun k => !((([("a", JNull)] : List (String × JVal)).map Prod.fst).contains k))).map
      (keyAddedMsg "root")).length =
      ((([("b", JNull)] : List (String × JVal)).map Prod.fst).toFinset \
        (([("a", JNull)] : List (String × JVal)).map Prod.fst).toFinset).card ∧
    (((([("a", JNull)] : List (String × JVal)).map Prod.fst).filter
        (fun k => !((([("b", JNull)] : List (String × JVal)).map Prod.fst).contains k))).map
      (keyRemovedMsg "root")).length =
      ((([("a", JNull)] : List (String × JVal)).map Prod.fst).toFinset \
        (([("b", JNull)] : List (String × JVal)).map Prod.fst).toFinset).card ∧
    (((([("b", JNull)] : List (String × JVal)).map Prod.fst).filter
        (fun k => !((([("a", JNull)] : List (String × JVal)).map Prod.fst).contains k))).map
      (keyAddedMsg "root") ++
     ((([("a", JNull)] : List (String × JVal)).map Prod.fst).filter
        (fun k => !((([("b", JNull)] : List (String × JVal)).map Prod.fst).contains k))).map
      (keyRemovedMsg "root")).Nodup) :=
  ⟨by decide, by decide,
    C7_mapping_key_completeness [("a", JNull)] [("b", JNull)] "root"
      (by decide) (by decide)⟩

/-! ## Totality (claim C9) -/

/-- C9: Totality of the comparator — every pair of inputs lands in exactly one
of the defined branches and produces a (possibly empty) list of records: the
type-mismatch branch when the kinds differ, and otherwise the dict, list,
numeric, string or null branch.  In particular no kind combination is
unhandled: the function is total and its dispatch is exhaustive (in Lean the
embedding is a total function, so no run can raise). -/
theorem C9_totality (a b : JVal) (path : String) :
    (tyName a ≠ tyName b ∧ compare_json a b path = [typeMismatchMsg path a b]) ∨
    (∃ kvs1 kvs2, a = JDict kvs1 ∧ b = JDict kvs2 ∧
      compare_json a b path =
        (((kvs2.map Prod.fst).filter
            (fun k => !((kvs1.map Prod.fst).contains k))).map (keyAddedMsg path)) ++
        (((kvs1.map Prod.fst).filter
            (fun k => !((kvs2.map Prod.fst).contains k))).map (keyRemovedMsg path)) ++
        compareCommon kvs1 kvs2 path) ∨
    (∃ xs ys, a = JList xs ∧ b = JList ys ∧
      compare_json a b path =
        if xs.all isNum && ys.all isNum then
          compare_numeric_array_stats (xs.map numVal) (ys.map numVal) path
        else
          (if xs.length = ys.length then []
           else [lenMismatchMsg path xs.length ys.length]) ++
            compareElems xs ys path 0) ∨
    (isNum a = true ∧ isNum b = true ∧
      compare_json a b path =
        if isclose (numVal a) (numVal b) then [] else [numMismatchMsg path a b]) ∨
    (∃ s1 s2, a = JStr s1 ∧ b = JStr s2 ∧
      compare_json a b path = if s1 = s2 then [] else [valMismatchMsg path s1 s2]) ∨
    (a = JNull ∧ b = JNull ∧ compare_json a b path = []) := by
  cases a <;> cases b
  case JNull.JNull => exact Or.inr (Or.inr (Or.inr (Or.inr (Or.inr ⟨rfl, rfl, rfl⟩))))
  case JBool.JBool => exact Or.inr (Or.inr (Or.inr (Or.inl ⟨rfl, rfl, rfl⟩)))
  case JInt.JInt => exact Or.inr (Or.inr (Or.inr (Or.inl ⟨rfl, rfl, rfl⟩)))
  case JFloat.JFloat => exact Or.inr (Or.inr (Or.inr (Or.inl ⟨rfl, rfl, rfl⟩)))
  case JStr.JStr => exact Or.inr (Or.inr (Or.inr (Or.inr (Or.inl ⟨_, _, rfl, rfl, rfl⟩))))
  case JList.JList => exact Or.inr (Or.inr (Or.inl ⟨_, _, rfl, rfl, rfl⟩))
  case JDict.JDict => exact Or.inr (Or.inl ⟨_, _, rfl, rfl, rfl⟩)
  all_goals exact Or.inl ⟨by intro h; simp [tyName] at h, rfl⟩

end JsonDiff
